import Mathlib

/-!
Verification of the publication-list conversion pipeline
(`database_maker.py`) and the snapshot viewer (`database_viewer.py`).

A pandas `DataFrame` of text cells is modelled as a column-name list
together with positional rows: row `r` holds the value of column
`cols[i]` at position `i`.  All cells are strings after
`df = df.astype(str)` in `load_data`, so cells are `String`.
-/

set_option autoImplicit false

namespace PubList

/-- The fixed metadata column names (`METADATA_COLUMNS` in
`database_maker.py`, identical list in `database_viewer.py`). -/
def METADATA_COLUMNS : List String :=
  ["Lp.",
   "Unikatowy Identyfikator Czasopisma",
   "Tytuł 1",
   "issn",
   "e-issn",
   "Tytuł 2",
   "issn 2",
   "e-issn 2",
   "Punkty"]

/-- A row is the list of its cell values, positionally aligned with the
owning frame's column list. -/
abbrev Row := List String

/-- A pandas DataFrame of text cells: ordered column names plus rows. -/
structure DataFrame where
  cols : List String
  rows : List Row
  deriving Repr, DecidableEq

/-- Label-based cell lookup, `row[c]` via the frame's column list: the
value aligned with the first column named `c`, or `""` when `c` is
absent (pandas raises there; every lookup in the pipeline is guarded by
membership, and the guarded `Option`-returning projection `selectCols`
models the raising path). -/
def getCell : List String → Row → String → String
  | c :: cs, v :: vs, name => if c == name then v else getCell cs vs name
  | _, _, _ => ""

/-- Python's `str.strip()`: drop leading and trailing whitespace,
expressed on the character list so it evaluates structurally. -/
def strStrip (s : String) : String :=
  ⟨((s.data.dropWhile Char.isWhitespace).reverse.dropWhile Char.isWhitespace).reverse⟩

/-- Python's `str.lower()`: lowercase every character, expressed on the
character list so it evaluates structurally. -/
def strLower (s : String) : String :=
  ⟨s.data.map Char.toLower⟩

/-- Marker predicate of the maker pipeline
(`col.str.strip().str.lower() == 'x'`, `database_maker.py` line 117). -/
def marked (v : String) : Bool :=
  strLower (strStrip v) == "x"

/-- Column Classifier (`database_maker.py` line 93):
`cat_columns = [col for col in df.columns if col not in METADATA_COLUMNS]`. -/
def catColumns (cols : List String) : List String :=
  cols.filter (fun c => !METADATA_COLUMNS.contains c)

/-- The out-of-range indices (`database_maker.py` line 108):
`invalid = [idx for idx in chosen_indexes if idx < 1 or idx > max_index]`
with `max_index = len(cat_columns)`. -/
def invalidIndexes (catCols : List String) (chosen : List Int) : List Int :=
  chosen.filter (fun idx => idx < 1 || idx > (catCols.length : Int))

/-- Category Selector (`database_maker.py` lines 107-113): indices are
1-based into `catCols`; if any index is out of range the run aborts
reporting the list of invalid indices, otherwise the indices resolve to
column names in the order supplied
(`[cat_columns[idx - 1] for idx in chosen_indexes]`). -/
def selectColumns (catCols : List String) (chosen : List Int) :
    Except (List Int) (List String) :=
  if (invalidIndexes catCols chosen).isEmpty then
    .ok (chosen.map (fun idx => catCols.getD (idx.toNat - 1) ""))
  else
    .error (invalidIndexes catCols chosen)

/-- Row survival (`database_maker.py` lines 117-118): the row is kept
iff at least one selected column's cell is marked
(`mask.any(axis=1)`). -/
def rowSurvives (cols : List String) (selected : List String) (r : Row) : Bool :=
  selected.any (fun c => marked (getCell cols r c))

/-- Filter Engine row stage (`df_filtered = df[mask.any(axis=1)]`,
`database_maker.py` line 118). -/
def filterRows (df : DataFrame) (selected : List String) : DataFrame :=
  ⟨df.cols, df.rows.filter (rowSurvives df.cols selected)⟩

/-- Label-based column projection `df[keep]`: pandas raises `KeyError`
when any requested label is absent (modelled as `none`); otherwise the
result has exactly the columns `keep`, in order, duplicates included
(`df[['a','a']]` yields two `a` columns). -/
def selectCols (df : DataFrame) (keep : List String) : Option DataFrame :=
  if keep.all (fun c => df.cols.contains c) then
    some ⟨keep, df.rows.map (fun r => keep.map (getCell df.cols r))⟩
  else
    none

/-- Filter Engine (`database_maker.py` lines 116-123): filter the rows,
then `df_final = df_filtered[METADATA_COLUMNS + chosen_cat_columns]`. -/
def runFilterStage (df : DataFrame) (selected : List String) : Option DataFrame :=
  selectCols (filterRows df selected) (METADATA_COLUMNS ++ selected)

/-! ### Report Writer (workbook, `database_maker.py` lines 141-177) -/

/-- One worksheet of the generated workbook: its name, its header
columns and its data rows. -/
structure Sheet where
  name : String
  cols : List String
  rows : List Row
  deriving Repr, DecidableEq

/-- Excel sheet-name truncation `cat[:31]`
(`database_maker.py` line 165), on the character list. -/
def truncate31 (s : String) : String :=
  ⟨s.data.take 31⟩

/-- Per-category sheet (`database_maker.py` lines 158-166): rows of
`df_final` whose cell in `cat` is marked; when that set is empty no
sheet is produced (`if df_cat.empty: continue`); otherwise the sheet
keeps `METADATA_COLUMNS + [cat]` (always present in `df_final`, whose
columns are `METADATA_COLUMNS + chosen`) under the truncated name. -/
def categorySheet (finalDf : DataFrame) (cat : String) : Option Sheet :=
  if (finalDf.rows.filter (fun r => marked (getCell finalDf.cols r cat))).isEmpty then
    none
  else
    some ⟨truncate31 cat, METADATA_COLUMNS ++ [cat],
      (finalDf.rows.filter (fun r => marked (getCell finalDf.cols r cat))).map
        (fun r => (METADATA_COLUMNS ++ [cat]).map (getCell finalDf.cols r))⟩

/-- The workbook's sheets in creation order (`database_maker.py` lines
141-177): sheet `All` with the whole of `df_final`, then one sheet per
chosen category in selection order, empty ones omitted.  (The xlsx
writer refuses duplicate sheet names, so a run that completes has
pairwise distinct truncated names, all different from `All`.) -/
def workbookSheets (finalDf : DataFrame) (chosen : List String) : List Sheet :=
  ⟨"All", finalDf.cols, finalDf.rows⟩ :: chosen.filterMap (categorySheet finalDf)

/-! ### Loader value canonicalization (`database_maker.py` line 70) -/

/-- A parsed source cell before `df.astype(str)`: pandas cells are
strings, integers, booleans or the float `NaN` placeholder for blanks. -/
inductive PyValue where
  | str (s : String)
  | intv (n : Int)
  | boolv (b : Bool)
  | nan
  deriving Repr, DecidableEq

/-- Python's `str()` on a cell value, as `astype(str)` applies it. -/
def pyStr : PyValue → String
  | .str s => s
  | .intv n => toString n
  | .boolv true => "True"
  | .boolv false => "False"
  | .nan => "nan"

/-- Canonicalization of one cell by `df = df.astype(str)`
(`database_maker.py` line 70): coerce the value to its text form. -/
def canonValue (v : PyValue) : PyValue :=
  .str (pyStr v)

/-! ### Viewer (`database_viewer.py`) -/

/-- Digit run to a natural number, most significant first. -/
def digitsToNat (cs : List Char) : Nat :=
  cs.foldl (fun n c => n * 10 + (c.toNat - 48)) 0

/-- Numeric re-interpretation of a text cell, modelling
`pd.to_numeric(..., errors="coerce")` (`database_viewer.py` line 27) on
the decimal literals that occur in a text column: optional sign,
digits, optional fractional part; anything else coerces to the missing
marker `none` (pandas `NaN`). -/
def toNumeric? (s : String) : Option ℚ :=
  let t := (strStrip s).data
  let sgn : ℚ × List Char :=
    match t with
    | '-' :: rest => (-1, rest)
    | '+' :: rest => (1, rest)
    | _ => (1, t)
  let intDigits := sgn.2.takeWhile Char.isDigit
  let rest := sgn.2.dropWhile Char.isDigit
  match rest with
  | [] =>
      if intDigits.isEmpty then none
      else some (sgn.1 * (digitsToNat intDigits : ℚ))
  | '.' :: frac =>
      if frac.all Char.isDigit && !(intDigits.isEmpty && frac.isEmpty) then
        some (sgn.1 * ((digitsToNat intDigits : ℚ) +
          (digitsToNat frac : ℚ) / (10 : ℚ) ^ frac.length))
      else none
  | _ => none

/-- The viewer's loaded table (`load_database`, `database_viewer.py`
lines 23-29): each snapshot row paired with its `Punkty` cell
re-interpreted numerically, unparsable values becoming the missing
marker `none`. -/
def loadDatabase (df : DataFrame) : List (Row × Option ℚ) :=
  df.rows.map (fun r => (r, toNumeric? (getCell df.cols r "Punkty")))

/-- Pandas `series >= x` on a float series: a missing value (`NaN`)
compares false. -/
def seriesGe (p : Option ℚ) (x : ℚ) : Bool :=
  match p with
  | none => false
  | some v => decide (x ≤ v)

/-- Pandas `series <= x` on a float series: a missing value (`NaN`)
compares false. -/
def seriesLe (p : Option ℚ) (x : ℚ) : Bool :=
  match p with
  | none => false
  | some v => decide (v ≤ x)

/-- The viewer's points range filter (`database_viewer.py` line 195):
`df[(df["Punkty"] >= min_points) & (df["Punkty"] <= max_points)]`. -/
def viewerRangeFilter (tbl : List (Row × Option ℚ)) (lo hi : ℚ) :
    List (Row × Option ℚ) :=
  tbl.filter (fun rp => seriesGe rp.2 lo && seriesLe rp.2 hi)

/-- The viewer's per-category marker test (`database_viewer.py` line
198): `str.lower() == 'x'`, with no whitespace strip. -/
def viewerMarked (v : String) : Bool :=
  strLower v == "x"

/-- The viewer's category filter (`database_viewer.py` lines 197-198):
`filtered_df[filtered_df[selected_category].str.lower() == 'x']`. -/
def viewerCategoryFilter (tbl : List (Row × Option ℚ)) (cols : List String)
    (cat : String) : List (Row × Option ℚ) :=
  tbl.filter (fun rp => viewerMarked (getCell cols rp.1 cat))

/-! ### Sample data for the concrete witnesses -/

/-- A sample loaded Dataset: the nine metadata columns plus categories
`A`, `B`, `C`.  Row 1 is marked in `A`, row 2 in `B` (with surrounding
whitespace and upper case), row 3 only in the category `C`. -/
def exDf : DataFrame :=
  ⟨METADATA_COLUMNS ++ ["A", "B", "C"],
   [["1", "u1", "t1", "i1", "e1", "s1", "i12", "e12", "100", "x", "", "c1"],
    ["2", "u2", "t2", "i2", "e2", "s2", "i22", "e22", "70.5", "", "  X ", "c2"],
    ["3", "u3", "t3", "i3", "e3", "s3", "i32", "e32", "abc", "no", "", "x"]]⟩

/-- The FilteredDataset the pipeline produces from `exDf` for the
selection `A, B`: rows 1 and 2 survive, column `C` is dropped. -/
def exFiltered : DataFrame :=
  ⟨METADATA_COLUMNS ++ ["A", "B"],
   [["1", "u1", "t1", "i1", "e1", "s1", "i12", "e12", "100", "x", ""],
    ["2", "u2", "t2", "i2", "e2", "s2", "i22", "e22", "70.5", "", "  X "]]⟩

/-- A loaded Dataset carrying only one of the nine fixed metadata
names, plus one category. -/
def exDfSparse : DataFrame :=
  ⟨["Lp.", "A"], [["1", "x"]]⟩

/-- A snapshot whose single category cell carries the marker surrounded
by whitespace. -/
def exWsDf : DataFrame :=
  ⟨METADATA_COLUMNS ++ ["A"],
   [["1", "u1", "t1", "i1", "e1", "s1", "i12", "e12", "100", "  x "]]⟩

/-- The Filter Engine output as the spec's words describe it (§4.2 with
§4.4): the projected metadata columns are the fixed list RESTRICTED to
the names present in the Dataset, so the projection always succeeds.
Stated only to compare with `runFilterStage`, which is the code's
behaviour. -/
def runFilterStageSpec (df : DataFrame) (selected : List String) : DataFrame :=
  ⟨METADATA_COLUMNS.filter (fun m => df.cols.contains m) ++ selected,
   (df.rows.filter (rowSurvives df.cols selected)).map
     (fun r => (METADATA_COLUMNS.filter (fun m => df.cols.contains m) ++ selected).map
       (getCell df.cols r))⟩

/-! ### Theorems -/

deriving instance DecidableEq for Except

/-- Projection keeps cell values: looking a requested column up in the
projected row `keep.map (getCell cols r)` gives the same value as
looking it up in the source row. -/
theorem getCell_map_proj (keep : List String) (cols : List String) (r : Row)
    (c : String) (hc : c ∈ keep) :
    getCell keep (keep.map (getCell cols r)) c = getCell cols r c := by
  induction keep with
  | nil => cases hc
  | cons k ks ih =>
    simp only [List.map_cons, getCell]
    by_cases h : k = c
    · simp [h]
    · have hb : (k == c) = false := beq_eq_false_iff_ne.mpr h
      rw [hb]
      simp only [Bool.false_eq_true, if_false]
      rcases List.mem_cons.mp hc with h1 | h1
      · exact absurd h1.symm h
      · exact ih h1

/-- C1: the Filter Engine retains a loaded row for a non-empty selection
iff at least one selected column's cell, trimmed of surrounding
whitespace and case-folded, equals the literal x; a marker in an
unselected column never causes retention, since only selected columns
occur in the survival condition. -/
theorem filter_retains_iff_marker_selected (df : DataFrame)
    (selected : List String) (_hne : selected ≠ []) (r : Row) :
    r ∈ (filterRows df selected).rows ↔
      r ∈ df.rows ∧ ∃ c ∈ selected, strLower (strStrip (getCell df.cols r c)) = "x" := by
  simp [filterRows, rowSurvives, marked, List.mem_filter, List.any_eq_true]

/-- Witness for C1, the spec's §8 scenario: selection `c1, c3`, row
`c1="X", c2="no", c3="  x "` is retained. -/
theorem filter_retains_iff_marker_selected_witness :
    (["c1", "c3"] : List String) ≠ [] ∧
      ["X", "no", "  x "] ∈
        (filterRows ⟨["c1", "c2", "c3"], [["X", "no", "  x "]]⟩ ["c1", "c3"]).rows :=
  ⟨by decide,
    (filter_retains_iff_marker_selected ⟨["c1", "c2", "c3"], [["X", "no", "  x "]]⟩
        ["c1", "c3"] (by decide) ["X", "no", "  x "]).mpr
      ⟨by decide, "c1", by decide, by decide⟩⟩

/-- C2: the Category Selector fails exactly when some index lies outside
`[1, N]`; its error then lists precisely the out-of-range indices of the
input and no name list is produced, and on success position `k` of the
result is the categorical column numbered by index `k` of the input. -/
theorem selector_reports_all_invalid (catCols : List String) (chosen : List Int) :
    (∀ inv, selectColumns catCols chosen = .error inv →
      ∀ i : Int, i ∈ inv ↔ i ∈ chosen ∧ (i < 1 ∨ (catCols.length : Int) < i)) ∧
    ((∃ i ∈ chosen, i < 1 ∨ (catCols.length : Int) < i) →
      ∀ names, selectColumns catCols chosen ≠ .ok names) ∧
    (∀ names, selectColumns catCols chosen = .ok names →
      ∀ (k : Nat) (i : Int), chosen.get? k = some i →
        names.get? k = catCols.get? (i.toNat - 1)) := by
  refine ⟨?_, ?_, ?_⟩
  · intro inv h i
    rw [selectColumns] at h
    split at h
    · simp at h
    · rw [Except.error.injEq] at h
      subst h
      simp [invalidIndexes, List.mem_filter]
  · intro hbad names h
    rw [selectColumns] at h
    split at h
    · rename_i hemp
      rw [List.isEmpty_iff, invalidIndexes, List.filter_eq_nil_iff] at hemp
      obtain ⟨i, hi, hout⟩ := hbad
      have h2 := hemp i hi
      simp only [Bool.or_eq_true, decide_eq_true_eq, not_or, not_lt] at h2
      rcases hout with h1 | h1 <;> omega
    · simp at h
  · intro names h k i hk
    rw [selectColumns] at h
    split at h
    · rename_i hemp
      rw [Except.ok.injEq] at h
      subst h
      rw [List.isEmpty_iff, invalidIndexes, List.filter_eq_nil_iff] at hemp
      have hi : i ∈ chosen := List.get?_mem hk
      have h2 := hemp i hi
      simp only [Bool.or_eq_true, decide_eq_true_eq, not_or, not_lt] at h2
      have hlt : i.toNat - 1 < catCols.length := by omega
      have hk' : chosen[k]? = some i := by rw [← List.get?_eq_getElem?]; exact hk
      simp [hk', List.getElem?_eq_getElem hlt]
    · simp at h

/-- Witness for C2, the spec's §8 scenario: `N = 5`, indices
`[2, 7, 0, 4]` are rejected reporting exactly `7` and `0`, and the
in-range request `[2, 4]` resolves in supplied order. -/
theorem selector_reports_all_invalid_witness :
    (selectColumns ["a", "b", "c", "d", "e"] [2, 7, 0, 4] = .error [7, 0]) ∧
    ((7 : Int) ∈ ([7, 0] : List Int) ↔
      (7 : Int) ∈ ([2, 7, 0, 4] : List Int) ∧
        ((7 : Int) < 1 ∨ ((["a", "b", "c", "d", "e"] : List String).length : Int) < 7)) ∧
    selectColumns ["a", "b", "c", "d", "e"] [2, 4] = .ok ["b", "d"] :=
  ⟨by decide,
   (selector_reports_all_invalid ["a", "b", "c", "d", "e"] [2, 7, 0, 4]).1 [7, 0]
     (by decide) 7,
   by decide⟩

/-- C3: when the Filter Engine produces a FilteredDataset, its column
sequence is exactly the metadata columns followed by the selected
categorical columns in that concatenation order, and no other column
(in particular no unselected categorical column) occurs in it. -/
theorem filtered_columns_exact (df : DataFrame) (selected : List String)
    (out : DataFrame) (h : runFilterStage df selected = some out) :
    out.cols = METADATA_COLUMNS ++ selected ∧
      ∀ c, c ∉ METADATA_COLUMNS ++ selected → c ∉ out.cols := by
  rw [runFilterStage, selectCols] at h
  split at h
  · rw [Option.some.injEq] at h
    subst h
    exact ⟨rfl, fun c hc => hc⟩
  · exact absurd h (by simp)

/-- Witness for C3: filtering `exDf` by the selection `A, B` yields
`exFiltered`, whose columns are the metadata columns followed by `A`
and `B`, with the unselected category `C` absent. -/
theorem filtered_columns_exact_witness :
    runFilterStage exDf ["A", "B"] = some exFiltered ∧
      exFiltered.cols = METADATA_COLUMNS ++ ["A", "B"] ∧
      "C" ∉ exFiltered.cols :=
  ⟨by decide,
   (filtered_columns_exact exDf ["A", "B"] exFiltered (by decide)).1,
   (filtered_columns_exact exDf ["A", "B"] exFiltered (by decide)).2 "C" (by decide)⟩

/-- A produced FilteredDataset is exactly the projection of the
surviving rows onto the metadata-plus-selected columns. -/
theorem runFilterStage_some (df : DataFrame) (selected : List String)
    (out : DataFrame) (h : runFilterStage df selected = some out) :
    out = ⟨METADATA_COLUMNS ++ selected,
      (df.rows.filter (rowSurvives df.cols selected)).map
        (fun r => (METADATA_COLUMNS ++ selected).map (getCell df.cols r))⟩ := by
  rw [runFilterStage, selectCols] at h
  split at h
  · rw [Option.some.injEq] at h
    exact h.symm
  · exact absurd h (by simp)

/-- C5: the pipeline never mutates a metadata value.  Every surviving
loaded row reappears in the FilteredDataset with each metadata column's
value identical to its loaded value, and every row of every workbook
sheet carries the metadata values of a surviving loaded row unchanged. -/
theorem metadata_values_never_mutated (df : DataFrame) (selected : List String)
    (out : DataFrame) (h : runFilterStage df selected = some out) :
    (∀ r ∈ df.rows, rowSurvives df.cols selected r = true →
      ∃ r' ∈ out.rows, ∀ m ∈ METADATA_COLUMNS,
        getCell out.cols r' m = getCell df.cols r m) ∧
    (∀ s ∈ workbookSheets out selected, ∀ r' ∈ s.rows,
      ∃ r ∈ df.rows, rowSurvives df.cols selected r = true ∧
        ∀ m ∈ METADATA_COLUMNS, getCell s.cols r' m = getCell df.cols r m) := by
  obtain rfl := runFilterStage_some df selected out h
  constructor
  · intro r hr hs
    refine ⟨(METADATA_COLUMNS ++ selected).map (getCell df.cols r),
      List.mem_map.mpr ⟨r, List.mem_filter.mpr ⟨hr, hs⟩, rfl⟩, ?_⟩
    intro m hm
    exact getCell_map_proj _ _ _ _ (List.mem_append_left _ hm)
  · intro s hs' r' hr'
    rcases List.mem_cons.mp hs' with rfl | htail
    · rcases List.mem_map.mp hr' with ⟨r, hrf, rfl⟩
      rcases List.mem_filter.mp hrf with ⟨hr, hsv⟩
      refine ⟨r, hr, hsv, ?_⟩
      intro m hm
      exact getCell_map_proj _ _ _ _ (List.mem_append_left _ hm)
    · rcases List.mem_filterMap.mp htail with ⟨cat, _, hsheet⟩
      rw [categorySheet] at hsheet
      split at hsheet
      · exact absurd hsheet (by simp)
      · rw [Option.some.injEq] at hsheet
        subst hsheet
        rcases List.mem_map.mp hr' with ⟨r'', hrcat, rfl⟩
        rcases List.mem_filter.mp hrcat with ⟨hr''mem, _⟩
        rcases List.mem_map.mp hr''mem with ⟨r, hrf, rfl⟩
        rcases List.mem_filter.mp hrf with ⟨hr, hsv⟩
        refine ⟨r, hr, hsv, ?_⟩
        intro m hm
        rw [getCell_map_proj _ _ _ _ (List.mem_append_left _ hm)]
        exact getCell_map_proj _ _ _ _ (List.mem_append_left _ hm)

/-- Witness for C5: in the `exDf` run, the surviving first row keeps its
metadata values byte for byte. -/
theorem metadata_values_never_mutated_witness :
    (["1", "u1", "t1", "i1", "e1", "s1", "i12", "e12", "100", "x", "", "c1"] ∈ exDf.rows) ∧
    (∃ r' ∈ exFiltered.rows, ∀ m ∈ METADATA_COLUMNS,
      getCell exFiltered.cols r' m =
        getCell exDf.cols ["1", "u1", "t1", "i1", "e1", "s1", "i12", "e12", "100", "x", "", "c1"] m) :=
  ⟨by decide,
   (metadata_values_never_mutated exDf ["A", "B"] exFiltered (by decide)).1
     ["1", "u1", "t1", "i1", "e1", "s1", "i12", "e12", "100", "x", "", "c1"]
     (by decide) (by decide)⟩

/-- C4 counterexample: on a Dataset carrying only `Lp.` of the fixed
metadata names, the code's projection fails outright (pandas raises
`KeyError` for the absent names, modelled by `none`) instead of using
only the present metadata names as the claim states, which would have
produced the column sequence `Lp., A` as `runFilterStageSpec` does. -/
theorem projection_ignores_absence_counterexample :
    runFilterStage exDfSparse ["A"] = none ∧
      (runFilterStageSpec exDfSparse ["A"]).cols = ["Lp.", "A"] ∧
      (runFilterStageSpec exDfSparse ["A"]).rows = [["1", "x"]] := by
  decide

/-- C4 (amended): the classifier's CategoricalColumns are exactly the
Dataset columns outside the fixed metadata name set, in Dataset order;
the downstream projection always uses the FULL fixed metadata list:
with every fixed name present (and the selection drawn from the
Dataset) it succeeds and its columns are the full fixed list followed
by the selection, and with any fixed name absent it fails rather than
restricting itself to the present names. -/
theorem classifier_and_projection_full_metadata (df : DataFrame)
    (selected : List String) :
    (∀ c, c ∈ catColumns df.cols ↔ c ∈ df.cols ∧ c ∉ METADATA_COLUMNS) ∧
    (catColumns df.cols).Sublist df.cols ∧
    ((∀ m ∈ METADATA_COLUMNS, m ∈ df.cols) → (∀ c ∈ selected, c ∈ df.cols) →
      ∃ out, runFilterStage df selected = some out ∧
        out.cols = METADATA_COLUMNS ++ selected) ∧
    ((∃ m ∈ METADATA_COLUMNS, m ∉ df.cols) → runFilterStage df selected = none) := by
  refine ⟨?_, List.filter_sublist _, ?_, ?_⟩
  · intro c
    simp [catColumns, List.mem_filter]
  · intro hmeta hsel
    rw [runFilterStage, selectCols]
    have hall : ((METADATA_COLUMNS ++ selected).all
        (fun c => (filterRows df selected).cols.contains c)) = true := by
      rw [List.all_eq_true]
      intro c hc
      rcases List.mem_append.mp hc with hc | hc
      · exact List.elem_iff.mpr (hmeta c hc)
      · exact List.elem_iff.mpr (hsel c hc)
    rw [if_pos hall]
    exact ⟨_, rfl, rfl⟩
  · intro hmiss
    obtain ⟨m, hm, habs⟩ := hmiss
    rw [runFilterStage, selectCols]
    have hall : ((METADATA_COLUMNS ++ selected).all
        (fun c => (filterRows df selected).cols.contains c)) = false := by
      rw [← Bool.not_eq_true, List.all_eq_true]
      intro hforall
      exact habs (List.elem_iff.mp (hforall m (List.mem_append_left _ hm)))
    rw [if_neg (by rw [hall]; exact Bool.false_ne_true)]

/-- Witness for C4 (amended): the projection succeeds on the complete
`exDf` and fails on the sparse Dataset missing metadata names. -/
theorem classifier_and_projection_full_metadata_witness :
    (∃ out, runFilterStage exDf ["A"] = some out ∧
      out.cols = METADATA_COLUMNS ++ ["A"]) ∧
    runFilterStage exDfSparse ["A"] = none :=
  ⟨(classifier_and_projection_full_metadata exDf ["A"]).2.2.1
     (by decide) (by decide),
   (classifier_and_projection_full_metadata exDfSparse ["A"]).2.2.2
     ⟨"Punkty", by decide, by decide⟩⟩

/-- C6 counterexample: the Selector accepts the duplicate indices
`1, 1`, resolving them to the duplicate names `A, A`, and the
downstream projection then replicates the column instead of ignoring
the duplicate reference: the FilteredDataset has `A` twice. -/
theorem duplicate_selection_duplicates_columns_counterexample :
    selectColumns (catColumns exDf.cols) [1, 1] = .ok ["A", "A"] ∧
      (runFilterStage exDf ["A", "A"]).map DataFrame.cols =
        some (METADATA_COLUMNS ++ ["A", "A"]) ∧
      ¬ (METADATA_COLUMNS ++ ["A", "A"]).Nodup := by
  decide

/-- C6 (amended): the FilteredDataset's column names are all distinct
whenever the resolved selected names are distinct (in particular for
distinct indices); duplicate indices instead yield duplicated columns. -/
theorem filtered_columns_nodup_for_distinct_selection (df : DataFrame)
    (selected : List String) (out : DataFrame)
    (h : runFilterStage df selected = some out)
    (hnd : selected.Nodup)
    (hsel : ∀ c ∈ selected, c ∈ catColumns df.cols) :
    out.cols.Nodup := by
  obtain rfl := runFilterStage_some df selected out h
  refine List.Nodup.append (by decide) hnd ?_
  intro a ha hb
  have h2 := hsel a hb
  simp [catColumns, List.mem_filter] at h2
  exact h2.2 ha

/-- Witness for C6 (amended): the distinct selection `A, B` on `exDf`
yields the duplicate-free column list of `exFiltered`. -/
theorem filtered_columns_nodup_for_distinct_selection_witness :
    (runFilterStage exDf ["A", "B"] = some exFiltered) ∧ exFiltered.cols.Nodup :=
  ⟨by decide,
   filtered_columns_nodup_for_distinct_selection exDf ["A", "B"] exFiltered
     (by decide) (by decide) (by decide)⟩

/-- A category sheet is produced exactly when some FilteredDataset row
is marked in the category, and is then the projection of the marked
rows onto metadata-plus-category. -/
theorem categorySheet_some_iff (finalDf : DataFrame) (cat : String) (s : Sheet) :
    categorySheet finalDf cat = some s ↔
      (∃ r ∈ finalDf.rows, marked (getCell finalDf.cols r cat) = true) ∧
      s = ⟨truncate31 cat, METADATA_COLUMNS ++ [cat],
        (finalDf.rows.filter (fun r => marked (getCell finalDf.cols r cat))).map
          (fun r => (METADATA_COLUMNS ++ [cat]).map (getCell finalDf.cols r))⟩ := by
  rw [categorySheet]
  split
  · rename_i hemp
    rw [List.isEmpty_iff, List.filter_eq_nil_iff] at hemp
    constructor
    · intro h
      exact absurd h (by simp)
    · rintro ⟨⟨r, hr, hm⟩, _⟩
      exact absurd hm (by simpa using hemp r hr)
  · rename_i hemp
    rw [List.isEmpty_iff, List.filter_eq_nil_iff] at hemp
    push_neg at hemp
    constructor
    · intro h
      rw [Option.some.injEq] at h
      exact ⟨by simpa using hemp, h.symm⟩
    · rintro ⟨_, rfl⟩
      rfl

/-- C7: under the sheet-name conditions any completed run satisfies
(pairwise distinct truncated names, none equal to `All`, which the xlsx
writer enforces by refusing duplicate sheet names), a selected category
has a sheet, named by its 31-character truncation, iff some
FilteredDataset row is marked in it; such a sheet holds exactly the
marked rows projected onto metadata-plus-category; and the `All` sheet
with every row and column always exists. -/
theorem category_sheet_iff_marked_row (finalDf : DataFrame) (chosen : List String)
    (c : String) (hc : c ∈ chosen)
    (hnn : (chosen.map truncate31).Nodup)
    (hall : "All" ∉ chosen.map truncate31) :
    ((∃ s ∈ workbookSheets finalDf chosen, s.name = truncate31 c) ↔
      ∃ r ∈ finalDf.rows, marked (getCell finalDf.cols r c) = true) ∧
    (∀ s ∈ workbookSheets finalDf chosen, s.name = truncate31 c →
      s.cols = METADATA_COLUMNS ++ [c] ∧
      s.rows = (finalDf.rows.filter (fun r => marked (getCell finalDf.cols r c))).map
        (fun r => (METADATA_COLUMNS ++ [c]).map (getCell finalDf.cols r))) ∧
    (∃ s ∈ workbookSheets finalDf chosen,
      s.name = "All" ∧ s.cols = finalDf.cols ∧ s.rows = finalDf.rows) := by
  refine ⟨⟨?_, ?_⟩, ?_, ?_⟩
  · rintro ⟨s, hs, hname⟩
    rcases List.mem_cons.mp hs with rfl | htail
    · refine absurd ?_ hall
      have hmem : truncate31 c ∈ chosen.map truncate31 := List.mem_map_of_mem _ hc
      rwa [← hname] at hmem
    · rcases List.mem_filterMap.mp htail with ⟨cat, hcat, hsome⟩
      rcases (categorySheet_some_iff finalDf cat s).mp hsome with ⟨⟨r, hr, hm⟩, rfl⟩
      have hceq : cat = c := List.inj_on_of_nodup_map hnn hcat hc hname
      subst hceq
      exact ⟨r, hr, hm⟩
  · rintro ⟨r, hr, hm⟩
    refine ⟨⟨truncate31 c, METADATA_COLUMNS ++ [c],
      (finalDf.rows.filter (fun r => marked (getCell finalDf.cols r c))).map
        (fun r => (METADATA_COLUMNS ++ [c]).map (getCell finalDf.cols r))⟩,
      ?_, rfl⟩
    refine List.mem_cons.mpr (Or.inr (List.mem_filterMap.mpr ⟨c, hc, ?_⟩))
    exact (categorySheet_some_iff finalDf c _).mpr ⟨⟨r, hr, hm⟩, rfl⟩
  · intro s hs hname
    rcases List.mem_cons.mp hs with rfl | htail
    · refine absurd ?_ hall
      have hmem : truncate31 c ∈ chosen.map truncate31 := List.mem_map_of_mem _ hc
      rwa [← hname] at hmem
    · rcases List.mem_filterMap.mp htail with ⟨cat, hcat, hsome⟩
      rcases (categorySheet_some_iff finalDf cat s).mp hsome with ⟨_, rfl⟩
      have hceq : cat = c := List.inj_on_of_nodup_map hnn hcat hc hname
      subst hceq
      exact ⟨rfl, rfl⟩
  · exact ⟨⟨"All", finalDf.cols, finalDf.rows⟩, List.mem_cons_self _ _, rfl, rfl, rfl⟩

/-- Witness for C7: in the workbook written from `exFiltered` with the
selection `A, B`, category `A` gets a sheet because its marked row set
is non-empty. -/
theorem category_sheet_iff_marked_row_witness :
    ("A" ∈ (["A", "B"] : List String)) ∧
    ((["A", "B"] : List String).map truncate31).Nodup ∧
    ("All" ∉ (["A", "B"] : List String).map truncate31) ∧
    ((∃ s ∈ workbookSheets exFiltered ["A", "B"], s.name = truncate31 "A") ↔
      ∃ r ∈ exFiltered.rows, marked (getCell exFiltered.cols r "A") = true) :=
  ⟨by decide, by decide, by decide,
   (category_sheet_iff_marked_row exFiltered ["A", "B"] "A"
     (by decide) (by decide) (by decide)).1⟩

/-- C8: the Loader's coercion of a cell to its canonical text form is
idempotent: canonicalizing an already-canonical value returns it
unchanged, whatever the parsed cell was. -/
theorem canonValue_idempotent (v : PyValue) :
    canonValue (canonValue v) = canonValue v :=
  rfl

/-- C9: a snapshot row whose points cell does not parse numerically is
loaded by the viewer with the missing marker `none` in place of its
points, and such a row never satisfies the viewer's min/max range
filter, whatever the bounds. -/
theorem null_points_excluded_from_range_filter (df : DataFrame) (r : Row)
    (hr : r ∈ df.rows)
    (hnull : toNumeric? (getCell df.cols r "Punkty") = none) :
    ((r, (none : Option ℚ)) ∈ loadDatabase df) ∧
    ∀ lo hi : ℚ, (r, (none : Option ℚ)) ∉ viewerRangeFilter (loadDatabase df) lo hi := by
  constructor
  · exact List.mem_map.mpr ⟨r, hr, by rw [hnull]⟩
  · intro lo hi hmem
    rw [viewerRangeFilter, List.mem_filter] at hmem
    simpa [seriesGe] using hmem.2

/-- Witness for C9: row 3 of `exDf` has the unparsable points value
`abc`; the viewer loads it with the missing marker and the range filter
for bounds 0 and 200 excludes it. -/
theorem null_points_excluded_from_range_filter_witness :
    ((["3", "u3", "t3", "i3", "e3", "s3", "i32", "e32", "abc", "no", "", "x"],
        (none : Option ℚ)) ∈ loadDatabase exDf) ∧
    (["3", "u3", "t3", "i3", "e3", "s3", "i32", "e32", "abc", "no", "", "x"],
        (none : Option ℚ)) ∉ viewerRangeFilter (loadDatabase exDf) 0 200 :=
  ⟨(null_points_excluded_from_range_filter exDf
      ["3", "u3", "t3", "i3", "e3", "s3", "i32", "e32", "abc", "no", "", "x"]
      (by decide) (by decide)).1,
   (null_points_excluded_from_range_filter exDf
      ["3", "u3", "t3", "i3", "e3", "s3", "i32", "e32", "abc", "no", "", "x"]
      (by decide) (by decide)).2 0 200⟩

/-- C10: the viewer's category predicate case-folds but does not trim,
so it differs from the pipeline's marker predicate: the whitespace
marker cell of `exWsDf` passes the maker's Filter Engine (its row
survives) yet the viewer's category filter on the same snapshot drops
the row; the two predicates are not equivalent. -/
theorem viewer_category_filter_differs_from_marker :
    marked "  x " = true ∧
    viewerMarked "  x " = false ∧
    (filterRows exWsDf ["A"]).rows = exWsDf.rows ∧
    viewerCategoryFilter (loadDatabase exWsDf) exWsDf.cols "A" = [] ∧
    ¬ ∀ v, viewerMarked v = marked v :=
  ⟨by decide, by decide, by decide, by decide,
   fun hall => absurd (hall "  x ") (by decide)⟩
